import Mathlib

/-!
Verification development for the dataroom-chart web component
(src/dataroom-chart.js and src/monochrome-patterns.js).

JavaScript values that flow through the component are modelled shallowly:
JSON values as an inductive type with numbers as rationals, DOM attribute
strings as `Option String` (with `none` for an absent attribute), the
external builtin JSON.parse as an explicit oracle `String → Option Json`
passed to the functions that call it, and the theme (CSS custom
properties on the document root, already read through getComputedStyle)
as a function from slot number to the raw property value string.
-/

namespace DataroomCharts

/-- JSON values as produced by the JSON.parse builtin.  Numbers are
modelled as rationals (the properties at stake are exact linear
arithmetic, not float rounding). -/
inductive Json where
  | null : Json
  | bool : Bool → Json
  | num : Rat → Json
  | str : String → Json
  | arr : List Json → Json
  | obj : List (String × Json) → Json

/-- Whitespace as stripped by the JavaScript String trim method
(restricted to the ASCII whitespace characters that occur here). -/
def jsWhitespace (c : Char) : Bool :=
  c = ' ' || c = '\t' || c = '\n' || c = '\r'

/-- The JavaScript String trim method: strip leading and trailing
whitespace. -/
def jsTrim (s : String) : String :=
  String.mk (((s.data.dropWhile jsWhitespace).reverse.dropWhile jsWhitespace).reverse)

/-- JavaScript truthiness of an optional attribute string:
`undefined`/`null` and the empty string are falsy. -/
def jsStrTruthy : Option String → Bool
  | none => false
  | some t => t != ""

/-- Truthiness of the guard `this.content && this.content.trim()` used by
both formatContent and getData: the content must be present, nonempty,
and nonempty after trimming. -/
def contentTruthy : Option String → Bool
  | none => false
  | some t => (t != "") && (jsTrim t != "")

/-- JavaScript truthiness of a JSON value: null, false, 0 and the empty
string are falsy; every array and every object is truthy. -/
def jsTruthy : Json → Bool
  | .null => false
  | .bool b => b
  | .num q => q != 0
  | .str s => s != ""
  | .arr _ => true
  | .obj _ => true

/-- The `.length` property of a JSON value: arrays and strings have one,
every other value yields undefined (`none`). -/
def jsLength : Json → Option Nat
  | .arr xs => some xs.length
  | .str s => some s.length
  | _ => none

/-- The empty-data guard shared by renderBarChart, renderScatterPlot and
renderDonutChart: `if (!data || data.length === 0)`.  Note that
`undefined === 0` is false in JavaScript, so a truthy value without a
`.length` property passes the guard. -/
def emptyDataGuardRejects (d : Json) : Bool :=
  (!(jsTruthy d)) || (jsLength d == some 0)

/-- Whether a JSON value is an object owning the named field. -/
def hasField (d : Json) (key : String) : Bool :=
  match d with
  | .obj kvs => kvs.any (fun kv => kv.fst == key)
  | _ => false

/-- Whether a JSON value is an object whose named field is a (finite)
number.  (Every rational models a finite JavaScript number.) -/
def fieldIsNum (d : Json) (key : String) : Bool :=
  match d with
  | .obj kvs => kvs.any (fun kv => kv.fst == key && (match kv.snd with
      | .num _ => true
      | _ => false))
  | _ => false

/-- The data-bearing inputs of the component as getData sees them:
the `data` attribute, the `src` attribute and the raw element text
content.  getData reads only `dataAttr` and `content`; `srcAttr` is
present on the element (the README documents it) but is never read by
the code. -/
structure DataSources where
  dataAttr : Option String := none
  srcAttr : Option String := none
  content : Option String := none

/-- The fixed sample dataset getData falls back to when no source is
provided (dataroom-chart.js lines 465-471). -/
def sampleData : List Json :=
  [ Json.obj [("label", Json.str "A"), ("value", Json.num 30), ("x", Json.num 1), ("y", Json.num 10)],
    Json.obj [("label", Json.str "B"), ("value", Json.num 80), ("x", Json.num 2), ("y", Json.num 20)],
    Json.obj [("label", Json.str "C"), ("value", Json.num 45), ("x", Json.num 3), ("y", Json.num 15)],
    Json.obj [("label", Json.str "D"), ("value", Json.num 60), ("x", Json.num 4), ("y", Json.num 25)],
    Json.obj [("label", Json.str "E"), ("value", Json.num 20), ("x", Json.num 5), ("y", Json.num 12)] ]

/-- getData (dataroom-chart.js lines 442-475), with JSON.parse passed in
as the oracle `parse`.  The `data` attribute wins when truthy; a parse
failure there returns the empty array.  Otherwise the element content is
parsed, a failure again returning the empty array.  With neither source
present the fixed sample dataset is returned.  The parsed value is
returned verbatim, whatever its shape; the `src` attribute is never
consulted. -/
def getData (parse : String → Option Json) (s : DataSources) : Json :=
  if jsStrTruthy s.dataAttr then
    match parse (s.dataAttr.getD "") with
    | some v => v
    | none => Json.arr []
  else if contentTruthy s.content then
    match parse (s.content.getD "") with
    | some v => v
    | none => Json.arr []
  else
    Json.arr sampleData

/-- The renderer chosen by the switch on `this.attrs.type` in
initialization (dataroom-chart.js lines 36-51). -/
inductive RenderAction where
  | barChart : RenderAction
  | scatterPlot : RenderAction
  | donutChart : RenderAction
  | showError : String → RenderAction
deriving DecidableEq

/-- The type dispatch switch (dataroom-chart.js lines 36-51): recognized
aliases are bar/barchart, scatter/scatterchart and donut/donutchart;
every other string falls to the default branch, which renders the
"No Chart Type Set" error. -/
def dispatchChartType : String → RenderAction
  | "bar" => .barChart
  | "barchart" => .barChart
  | "scatter" => .scatterPlot
  | "scatterchart" => .scatterPlot
  | "donut" => .donutChart
  | "donutchart" => .donutChart
  | _ => .showError "No Chart Type Set"

/-- The built-in fallback palette of getColorPalette
(dataroom-chart.js lines 404-409). -/
def fallbackPalette : List String :=
  [ "#440154", "#482878", "#3e4989", "#31688e", "#26828e", "#1f9e89",
    "#35b779", "#6ece58", "#8fd744", "#b8de29", "#d8e219", "#fde725" ]

/-- The loop body of getColorPalette: read the theme variables
--color-1 through --color-12 in order, trim each, keep the nonempty
ones.  `theme i` is the raw value of --color-i as getPropertyValue
returns it (the empty string for an unset property). -/
def collectThemeColors (theme : Nat → String) : List String :=
  ((List.range 12).map (fun i => jsTrim (theme (i + 1)))).filter (fun s => s != "")

/-- getColorPalette (dataroom-chart.js lines 390-412): the set theme
slots in order, or the fallback palette when every slot is empty. -/
def getColorPalette (theme : Nat → String) : List String :=
  let colors := collectThemeColors theme
  if colors.isEmpty then fallbackPalette else colors

/-- getColor (dataroom-chart.js lines 419-436).  `colorAttr` is
`this.attrs.color`, `hiRaw` the raw value of the --hi theme variable,
`fallback` the caller-supplied argument (default null).  The final line
of the source is `return fallback || palette[0] || buttonBlue`, so a
truthy caller-supplied fallback wins over the palette head. -/
def getColor (colorAttr : Option String) (hiRaw : String) (theme : Nat → String)
    (fallback : Option String) : String :=
  if jsStrTruthy colorAttr then colorAttr.getD ""
  else if jsTrim hiRaw != "" then jsTrim hiRaw
  else
    let palette := getColorPalette theme
    if jsStrTruthy fallback then fallback.getD ""
    else if palette.getD 0 "" != "" then palette.getD 0 ""
    else "#007bff"

/-- The pattern ids built by setupPatterns (dataroom-chart.js lines
75-91): exactly 12 ids pattern-0 .. pattern-11 pushed in order. -/
def setupPatternIds : List String :=
  (List.range 12).map (fun i => "pattern-" ++ toString i)

/-- The per-component state getFillValue reads: the monochrome flag, the
pattern ids built at setup (equal to setupPatternIds whenever monochrome
mode ran setupPatterns), the `color` attribute and the theme. -/
structure FillCtx where
  isMonochrome : Bool
  patterns : List String
  colorAttr : Option String
  theme : Nat → String

/-- getFillValue (dataroom-chart.js lines 106-118).  In monochrome mode
it returns a url reference to pattern `index % patterns.length`,
ignoring the custom color.  Otherwise a truthy per-datum custom color
wins, then a truthy `color` attribute, then the palette entry at
`index % palette.length`. -/
def getFillValue (ctx : FillCtx) (index : Nat) (customColor : Option String) : String :=
  if ctx.isMonochrome then
    "url(#" ++ ctx.patterns.getD (index % ctx.patterns.length) "" ++ ")"
  else if jsStrTruthy customColor then customColor.getD ""
  else if jsStrTruthy ctx.colorAttr then ctx.colorAttr.getD ""
  else
    let palette := getColorPalette ctx.theme
    palette.getD (index % palette.length) ""

/-- One entry of the monochromePatterns lookup tables
(monochrome-patterns.js): a pattern type name with its spacing and
stroke width in pixels. -/
structure PatternConfig where
  type : String
  spacing : Rat
  strokeWidth : Rat
deriving DecidableEq

/-- monochromePatterns.default (monochrome-patterns.js lines 693-706):
12 diagonal-stripe variants of increasing sparseness. -/
def defaultPatternTable : List PatternConfig :=
  [ ⟨"diagonal", 2, 1/2⟩, ⟨"diagonal", 3, 1/2⟩, ⟨"diagonal", 4, 1/2⟩,
    ⟨"diagonal", 5, 1/2⟩, ⟨"diagonal", 6, 1/2⟩, ⟨"diagonal", 8, 1/2⟩,
    ⟨"diagonal", 2, 1⟩, ⟨"diagonal", 3, 1⟩, ⟨"diagonal", 4, 1⟩,
    ⟨"diagonal", 5, 1⟩, ⟨"diagonal", 6, 1⟩, ⟨"diagonal", 8, 1⟩ ]

/-- monochromePatterns.diagonal: identical 12 variants. -/
def diagonalPatternTable : List PatternConfig :=
  [ ⟨"diagonal", 2, 1/2⟩, ⟨"diagonal", 3, 1/2⟩, ⟨"diagonal", 4, 1/2⟩,
    ⟨"diagonal", 5, 1/2⟩, ⟨"diagonal", 6, 1/2⟩, ⟨"diagonal", 8, 1/2⟩,
    ⟨"diagonal", 2, 1⟩, ⟨"diagonal", 3, 1⟩, ⟨"diagonal", 4, 1⟩,
    ⟨"diagonal", 5, 1⟩, ⟨"diagonal", 6, 1⟩, ⟨"diagonal", 8, 1⟩ ]

/-- monochromePatterns, horizontal-stripes entry. -/
def horizontalStripesTable : List PatternConfig :=
  [ ⟨"horizontal-stripes", 2, 1/2⟩, ⟨"horizontal-stripes", 3, 1/2⟩,
    ⟨"horizontal-stripes", 4, 1/2⟩, ⟨"horizontal-stripes", 5, 1/2⟩,
    ⟨"horizontal-stripes", 6, 1/2⟩, ⟨"horizontal-stripes", 8, 1/2⟩,
    ⟨"horizontal-stripes", 2, 1⟩, ⟨"horizontal-stripes", 3, 1⟩,
    ⟨"horizontal-stripes", 4, 1⟩, ⟨"horizontal-stripes", 5, 1⟩,
    ⟨"horizontal-stripes", 6, 1⟩, ⟨"horizontal-stripes", 8, 1⟩ ]

/-- monochromePatterns, vertical-stripes entry. -/
def verticalStripesTable : List PatternConfig :=
  [ ⟨"vertical-stripes", 2, 1/2⟩, ⟨"vertical-stripes", 3, 1/2⟩,
    ⟨"vertical-stripes", 4, 1/2⟩, ⟨"vertical-stripes", 5, 1/2⟩,
    ⟨"vertical-stripes", 6, 1/2⟩, ⟨"vertical-stripes", 8, 1/2⟩,
    ⟨"vertical-stripes", 2, 1⟩, ⟨"vertical-stripes", 3, 1⟩,
    ⟨"vertical-stripes", 4, 1⟩, ⟨"vertical-stripes", 5, 1⟩,
    ⟨"vertical-stripes", 6, 1⟩, ⟨"vertical-stripes", 8, 1⟩ ]

/-- monochromePatterns, cross-hatch entry. -/
def crossHatchTable : List PatternConfig :=
  [ ⟨"cross-hatch", 4, 1/2⟩, ⟨"cross-hatch", 5, 1/2⟩, ⟨"cross-hatch", 6, 1/2⟩,
    ⟨"cross-hatch", 7, 1/2⟩, ⟨"cross-hatch", 8, 1/2⟩, ⟨"cross-hatch", 10, 1/2⟩,
    ⟨"cross-hatch", 4, 1⟩, ⟨"cross-hatch", 5, 1⟩, ⟨"cross-hatch", 6, 1⟩,
    ⟨"cross-hatch", 7, 1⟩, ⟨"cross-hatch", 8, 1⟩, ⟨"cross-hatch", 10, 1⟩ ]

/-- monochromePatterns.dots. -/
def dotsTable : List PatternConfig :=
  [ ⟨"dots", 4, 1⟩, ⟨"dots", 5, 1⟩, ⟨"dots", 6, 1⟩,
    ⟨"dots", 7, 1⟩, ⟨"dots", 8, 1⟩, ⟨"dots", 10, 1⟩,
    ⟨"dots", 4, 3/2⟩, ⟨"dots", 5, 3/2⟩, ⟨"dots", 6, 3/2⟩,
    ⟨"dots", 7, 3/2⟩, ⟨"dots", 8, 3/2⟩, ⟨"dots", 10, 3/2⟩ ]

/-- monochromePatterns.circles. -/
def circlesTable : List PatternConfig :=
  [ ⟨"circles", 4, 1/2⟩, ⟨"circles", 5, 1/2⟩, ⟨"circles", 6, 1/2⟩,
    ⟨"circles", 7, 1/2⟩, ⟨"circles", 8, 1/2⟩, ⟨"circles", 10, 1/2⟩,
    ⟨"circles", 4, 1⟩, ⟨"circles", 5, 1⟩, ⟨"circles", 6, 1⟩,
    ⟨"circles", 7, 1⟩, ⟨"circles", 8, 1⟩, ⟨"circles", 10, 1⟩ ]

/-- monochromePatterns, hounds-tooth entry. -/
def houndsToothTable : List PatternConfig :=
  [ ⟨"hounds-tooth", 3, 1/2⟩, ⟨"hounds-tooth", 4, 1/2⟩, ⟨"hounds-tooth", 5, 1/2⟩,
    ⟨"hounds-tooth", 6, 1/2⟩, ⟨"hounds-tooth", 7, 1/2⟩, ⟨"hounds-tooth", 8, 1/2⟩,
    ⟨"hounds-tooth", 3, 1⟩, ⟨"hounds-tooth", 4, 1⟩, ⟨"hounds-tooth", 5, 1⟩,
    ⟨"hounds-tooth", 6, 1⟩, ⟨"hounds-tooth", 7, 1⟩, ⟨"hounds-tooth", 8, 1⟩ ]

/-- The lookup `monochromePatterns[patternType] || monochromePatterns.default`
inside getPatternByIndex: a key that is none of the seven named tables
falls back to the default table. -/
def monochromePatternTable : String → List PatternConfig
  | "default" => defaultPatternTable
  | "diagonal" => diagonalPatternTable
  | "horizontal-stripes" => horizontalStripesTable
  | "vertical-stripes" => verticalStripesTable
  | "cross-hatch" => crossHatchTable
  | "dots" => dotsTable
  | "circles" => circlesTable
  | "hounds-tooth" => houndsToothTable
  | _ => defaultPatternTable

/-- getPatternByIndex (monochrome-patterns.js lines 820-823): select
entry `index % patterns.length` of the chosen table (every table has 12
entries, so the modulus is always 12). -/
def getPatternByIndex (index : Nat) (patternType : String) : PatternConfig :=
  let patterns := monochromePatternTable patternType
  patterns.getD (index % patterns.length) ⟨"diagonal", 2, 1/2⟩

/-- `parseInt(attr) || 400`, the dimension resolution shared by the
renderers: an absent or non-numeric attribute (`none`) and the falsy
parse result 0 both give 400. -/
def resolveDim : Option Int → Int
  | none => 400
  | some w => if w = 0 then 400 else w

/-- `width - margin.left - margin.right` with the fixed margins
`top 20, right 30, bottom 40, left 40` of the bar and scatter
renderers. -/
def chartWidthFor (width : Int) : Int := width - 40 - 30

/-- `height - margin.top - margin.bottom` with the same fixed margins. -/
def chartHeightFor (height : Int) : Int := height - 20 - 40

/-- d3.scaleLinear with domain `[d0, d1]` and range `[r0, r1]`, applied
to `v`: d3 normalizes `v` within the domain and interpolates the range;
on a degenerate domain its normalizer is the constant 1/2, so every
input maps to the midpoint of the range. -/
def scaleLinearMap (d0 d1 r0 r1 v : Rat) : Rat :=
  if d1 - d0 = 0 then r0 + (r1 - r0) * (1 / 2)
  else r0 + (r1 - r0) * ((v - d0) / (d1 - d0))

/-- d3.max over a list of (finite) numbers: undefined on the empty
list, otherwise the maximum. -/
def d3max : List Rat → Option Rat
  | [] => none
  | x :: xs => some (xs.foldl max x)

/-- d3.extent over a list of (finite) numbers: undefined on the empty
list, otherwise the pair `(minimum, maximum)`. -/
def d3extent : List Rat → Option (Rat × Rat)
  | [] => none
  | x :: xs => some (xs.foldl min x, xs.foldl max x)

/-- A category datum as the bar renderer reads it. -/
structure BarDatum where
  label : String
  value : Rat
deriving DecidableEq

/-- An XY datum as the scatter renderer reads it. -/
structure XYDatum where
  x : Rat
  y : Rat
deriving DecidableEq

/-- `d3.max(data, d => d.value)` in the vertical bar renderer; the
renderer only reaches it on a nonempty dataset (the empty-data guard
returned first), so the `none` case is unreachable there. -/
def barMaxValue (data : List BarDatum) : Rat :=
  (d3max (data.map (fun d => d.value))).getD 0

/-- The vertical bar value scale (dataroom-chart.js lines 188-190):
linear, domain `[0, max(value)]`, range `[chartHeight, 0]`. -/
def barYScale (data : List BarDatum) (height : Int) (v : Rat) : Rat :=
  scaleLinearMap 0 (barMaxValue data) ((chartHeightFor height : Int) : Rat) 0 v

/-- The rendered height attribute of a vertical bar
(dataroom-chart.js line 200): `chartHeight - yScale(d.value)`. -/
def barRenderedHeight (data : List BarDatum) (height : Int) (v : Rat) : Rat :=
  ((chartHeightFor height : Int) : Rat) - barYScale data height v

/-- The scatter x scale domain (dataroom-chart.js lines 244-245):
`d3.extent(data, d => d.x)`. -/
def scatterXDomain (data : List XYDatum) : Option (Rat × Rat) :=
  d3extent (data.map (fun d => d.x))

/-- The scatter y scale domain (dataroom-chart.js lines 248-249):
`d3.extent(data, d => d.y)`. -/
def scatterYDomain (data : List XYDatum) : Option (Rat × Rat) :=
  d3extent (data.map (fun d => d.y))

/-! Concrete example inputs used by counterexamples and witnesses. -/

/-- A theme with every color slot unset. -/
def themeAllEmptyEx : Nat → String := fun _ => ""

/-- A theme with only --color-1 set. -/
def themeOneSlotEx : Nat → String := fun i => if i = 1 then "red" else ""

/-- A theme with --color-1 through --color-5 set and the rest unset. -/
def themeFiveSlotsEx : Nat → String := fun i => if i ≤ 5 then "c" ++ toString i else ""

/-- A JSON.parse oracle for the document `[ \x7b "label" : "A" \x7d ]`:
an array whose single entry has no value, x or y field. -/
def parseRetainsEx : String → Option Json :=
  fun s =>
    if s = "[\x7b\"label\":\"A\"\x7d]" then
      some (Json.arr [Json.obj [("label", Json.str "A")]])
    else none

/-- A JSON.parse oracle for the document `\x7b "a" : 1 \x7d`: a plain
object, not an array. -/
def parseObjEx : String → Option Json :=
  fun s =>
    if s = "\x7b\"a\": 1\x7d" then some (Json.obj [("a", Json.num 1)])
    else none

/-- A non-monochrome component over the five-slot theme, with no color
attribute (setupPatterns never ran, so the pattern list is empty). -/
def fillCtxFiveEx : FillCtx :=
  { isMonochrome := false, patterns := [], colorAttr := none, theme := themeFiveSlotsEx }

/-- A monochrome component with the 12 pattern ids setupPatterns
builds. -/
def fillCtxMonoEx : FillCtx :=
  { isMonochrome := true, patterns := setupPatternIds, colorAttr := none,
    theme := themeAllEmptyEx }

/-- A non-monochrome component over the all-empty theme (palette is the
12-entry fallback). -/
def fillCtxPlainEx : FillCtx :=
  { isMonochrome := false, patterns := [], colorAttr := none, theme := themeAllEmptyEx }

/-- The single-datum dataset of the bar counterexample. -/
def barDataCex : List BarDatum := [⟨"A", 5⟩]

/-- The bar dataset of the round-trip example in the specification. -/
def barDataW : List BarDatum := [⟨"A", 30⟩, ⟨"B", 80⟩]

/-- A three-point scatter dataset. -/
def scatterDataW : List XYDatum := [⟨1, 10⟩, ⟨3, 2⟩, ⟨2, 7⟩]

/-! Helper lemmas about folded minima and maxima, used to characterize
the d3.extent domains. -/

/-- A folded minimum is bounded by its accumulator. -/
theorem foldl_min_le_acc (xs : List Rat) (a : Rat) : xs.foldl min a ≤ a := by
  induction xs generalizing a with
  | nil => exact le_refl a
  | cons x xs ih =>
    exact le_trans (ih (min a x)) (min_le_left a x)

/-- A folded minimum is bounded by every list element. -/
theorem foldl_min_le_mem (xs : List Rat) (a : Rat) :
    ∀ v ∈ xs, xs.foldl min a ≤ v := by
  induction xs generalizing a with
  | nil => intro v hv; cases hv
  | cons x xs ih =>
    intro v hv
    rcases List.mem_cons.mp hv with rfl | h
    · exact le_trans (foldl_min_le_acc xs (min a v)) (min_le_right a v)
    · exact ih (min a x) v h

/-- A folded minimum is the accumulator or one of the list elements. -/
theorem foldl_min_mem (xs : List Rat) (a : Rat) :
    xs.foldl min a = a ∨ xs.foldl min a ∈ xs := by
  induction xs generalizing a with
  | nil => exact Or.inl rfl
  | cons x xs ih =>
    rcases ih (min a x) with h | h
    · rcases min_choice a x with hax | hax
      · exact Or.inl (by rw [List.foldl_cons, h, hax])
      · exact Or.inr (by rw [List.foldl_cons, h, hax]; exact List.mem_cons_self x xs)
    · exact Or.inr (List.mem_cons_of_mem x h)

/-- A folded maximum dominates its accumulator. -/
theorem foldl_max_ge_acc (xs : List Rat) (a : Rat) : a ≤ xs.foldl max a := by
  induction xs generalizing a with
  | nil => exact le_refl a
  | cons x xs ih =>
    exact le_trans (le_max_left a x) (ih (max a x))

/-- A folded maximum dominates every list element. -/
theorem foldl_max_ge_mem (xs : List Rat) (a : Rat) :
    ∀ v ∈ xs, v ≤ xs.foldl max a := by
  induction xs generalizing a with
  | nil => intro v hv; cases hv
  | cons x xs ih =>
    intro v hv
    rcases List.mem_cons.mp hv with rfl | h
    · exact le_trans (le_max_right a v) (foldl_max_ge_acc xs (max a v))
    · exact ih (max a x) v h

/-- A folded maximum is the accumulator or one of the list elements. -/
theorem foldl_max_mem (xs : List Rat) (a : Rat) :
    xs.foldl max a = a ∨ xs.foldl max a ∈ xs := by
  induction xs generalizing a with
  | nil => exact Or.inl rfl
  | cons x xs ih =>
    rcases ih (max a x) with h | h
    · rcases max_choice a x with hax | hax
      · exact Or.inl (by rw [List.foldl_cons, h, hax])
      · exact Or.inr (by rw [List.foldl_cons, h, hax]; exact List.mem_cons_self x xs)
    · exact Or.inr (List.mem_cons_of_mem x h)

/-- d3.extent of a nonempty list is a pair of attained bounds. -/
theorem d3extent_spec (l : List Rat) (hne : l ≠ []) :
    ∃ lo hi, d3extent l = some (lo, hi) ∧ lo ∈ l ∧ hi ∈ l ∧
      ∀ v ∈ l, lo ≤ v ∧ v ≤ hi := by
  match l, hne with
  | x :: xs, _ =>
    refine ⟨xs.foldl min x, xs.foldl max x, rfl, ?_, ?_, ?_⟩
    · rcases foldl_min_mem xs x with h | h
      · rw [h]; exact List.mem_cons_self x xs
      · exact List.mem_cons_of_mem x h
    · rcases foldl_max_mem xs x with h | h
      · rw [h]; exact List.mem_cons_self x xs
      · exact List.mem_cons_of_mem x h
    · intro v hv
      rcases List.mem_cons.mp hv with h | h
      · subst h
        exact ⟨foldl_min_le_acc xs v, foldl_max_ge_acc xs v⟩
      · exact ⟨foldl_min_le_mem xs x v h, foldl_max_ge_mem xs x v h⟩

/-- Claim C1: the type aliases line, line-graph and linegraph are
claimed to dispatch to a line renderer; the switch in initialization
has no case for any of them, so all three fall to the default branch
and render the No Chart Type Set error. -/
theorem line_aliases_dispatch_to_error :
    dispatchChartType "line" = RenderAction.showError "No Chart Type Set" ∧
    dispatchChartType "line-graph" = RenderAction.showError "No Chart Type Set" ∧
    dispatchChartType "linegraph" = RenderAction.showError "No Chart Type Set" :=
  ⟨rfl, rfl, rfl⟩

/-- Claim C2: with no data attribute and no element content, getData is
claimed to fetch the src URL and use its parsed JSON.  In fact getData
never consults src: for every parse oracle (hence for every fetched
document) and every src attribute value, it returns the fixed sample
dataset. -/
theorem src_attribute_never_consulted :
    ∀ (parse : String → Option Json) (url : Option String),
      getData parse { dataAttr := none, srcAttr := url, content := none }
        = Json.arr sampleData := by
  intro parse url
  rfl

/-- Claim C3: getData is asymmetric between invalid and absent sources.
A present data attribute that fails to parse yields the empty array; a
present content (with no data attribute) that fails to parse yields the
empty array; with no source at all it yields the fixed 5-row sample
dataset, every row of which carries label, value, x and y fields. -/
theorem getData_source_asymmetry :
    (∀ (parse : String → Option Json) (s : DataSources),
      jsStrTruthy s.dataAttr = true → parse (s.dataAttr.getD "") = none →
      getData parse s = Json.arr []) ∧
    (∀ (parse : String → Option Json) (s : DataSources),
      jsStrTruthy s.dataAttr = false → contentTruthy s.content = true →
      parse (s.content.getD "") = none →
      getData parse s = Json.arr []) ∧
    (∀ (parse : String → Option Json) (s : DataSources),
      jsStrTruthy s.dataAttr = false → contentTruthy s.content = false →
      getData parse s = Json.arr sampleData ∧ sampleData.length = 5 ∧
      sampleData.all (fun r => hasField r "label" && hasField r "value" &&
        hasField r "x" && hasField r "y") = true) := by
  refine ⟨?_, ?_, ?_⟩
  · intro parse s h hp
    simp [getData, h, hp]
  · intro parse s h hc hp
    simp [getData, h, hc, hp]
  · intro parse s h hc
    refine ⟨by simp [getData, h, hc], rfl, rfl⟩

/-- Witness for claim C3 at concrete inputs: a failing parse of a
present data attribute, a failing parse of present content, and the
absent-source branch. -/
theorem getData_source_asymmetry_witness :
    getData (fun _ => none) { dataAttr := some "notjson", srcAttr := none, content := none }
      = Json.arr [] ∧
    getData (fun _ => none) { dataAttr := none, srcAttr := none, content := some "notjson" }
      = Json.arr [] ∧
    getData (fun _ => none) { dataAttr := none, srcAttr := none, content := none }
      = Json.arr sampleData :=
  ⟨getData_source_asymmetry.1 (fun _ => none)
     { dataAttr := some "notjson", srcAttr := none, content := none } rfl rfl,
   getData_source_asymmetry.2.1 (fun _ => none)
     { dataAttr := none, srcAttr := none, content := some "notjson" } rfl (by decide) rfl,
   (getData_source_asymmetry.2.2 (fun _ => none)
     { dataAttr := none, srcAttr := none, content := none } rfl rfl).1⟩

/-- Claim C4 counterexample: with only --color-1 set, getColorPalette
returns a single entry, not 12; the partial-slot fallback the claim
asserts does not exist. -/
theorem getColorPalette_one_slot_not_twelve :
    getColorPalette themeOneSlotEx = ["red"] ∧
    (getColorPalette themeOneSlotEx).length ≠ 12 := by
  constructor
  · decide
  · decide

/-- Claim C4 as amended: getColorPalette returns the nonempty theme
slots in order when at least one of the 12 slots is set (between 1 and
12 entries, fewer than 12 when only some are set), and the built-in
12-color fallback exactly when every slot is empty. -/
theorem getColorPalette_slots_or_fallback :
    ∀ theme : Nat → String,
      (collectThemeColors theme = [] →
        getColorPalette theme = fallbackPalette ∧ (getColorPalette theme).length = 12) ∧
      (collectThemeColors theme ≠ [] →
        getColorPalette theme = collectThemeColors theme ∧
        1 ≤ (getColorPalette theme).length ∧ (getColorPalette theme).length ≤ 12) := by
  intro theme
  constructor
  · intro h
    constructor
    · simp [getColorPalette, h]
    · simp [getColorPalette, h, fallbackPalette]
  · intro h
    have hne : (collectThemeColors theme).isEmpty = false := by
      simpa [List.isEmpty_iff] using h
    have heq : getColorPalette theme = collectThemeColors theme := by
      simp [getColorPalette, hne]
    refine ⟨heq, ?_, ?_⟩
    · rw [heq]
      have : 0 < (collectThemeColors theme).length := List.length_pos.mpr h
      omega
    · rw [heq]
      calc (collectThemeColors theme).length
          ≤ (((List.range 12).map (fun i => jsTrim (theme (i + 1))))).length :=
            List.length_filter_le _ _
        _ = 12 := by simp

/-- Witness for claim C4 as amended: the all-empty theme falls back to
the 12-stop palette; the one-slot theme keeps its single slot. -/
theorem getColorPalette_slots_or_fallback_witness :
    getColorPalette themeAllEmptyEx = fallbackPalette ∧
    getColorPalette themeOneSlotEx = collectThemeColors themeOneSlotEx :=
  ⟨((getColorPalette_slots_or_fallback themeAllEmptyEx).1 (by decide)).1,
   ((getColorPalette_slots_or_fallback themeOneSlotEx).2 (by decide)).1⟩

/-- Claim C5 counterexample: with no color attribute, no highlight
variable and an all-empty theme, a caller-supplied fallback "blue" is
returned even though palette[0] is "#440154"; the claimed preference of
palette[0] over the caller-supplied fallback is reversed in the code. -/
theorem getColor_fallback_over_palette_cex :
    getColor none "" themeAllEmptyEx (some "blue") = "blue" ∧
    (getColorPalette themeAllEmptyEx).getD 0 "" = "#440154" ∧
    getColor none "" themeAllEmptyEx (some "blue")
      ≠ (getColorPalette themeAllEmptyEx).getD 0 "" := by
  refine ⟨by decide, by decide, by decide⟩

/-- Claim C5 as amended: getColor resolves, in order, the explicit
color attribute, then the trimmed theme highlight variable, then the
caller-supplied fallback, then the first palette entry, then the
constant #007bff — the caller-supplied fallback precedes palette[0]. -/
theorem getColor_precedence :
    ∀ (colorAttr : Option String) (hiRaw : String) (theme : Nat → String)
      (fallback : Option String),
      (jsStrTruthy colorAttr = true →
        getColor colorAttr hiRaw theme fallback = colorAttr.getD "") ∧
      (jsStrTruthy colorAttr = false → jsTrim hiRaw ≠ "" →
        getColor colorAttr hiRaw theme fallback = jsTrim hiRaw) ∧
      (jsStrTruthy colorAttr = false → jsTrim hiRaw = "" →
        jsStrTruthy fallback = true →
        getColor colorAttr hiRaw theme fallback = fallback.getD "") ∧
      (jsStrTruthy colorAttr = false → jsTrim hiRaw = "" →
        jsStrTruthy fallback = false → (getColorPalette theme).getD 0 "" ≠ "" →
        getColor colorAttr hiRaw theme fallback = (getColorPalette theme).getD 0 "") ∧
      (jsStrTruthy colorAttr = false → jsTrim hiRaw = "" →
        jsStrTruthy fallback = false → (getColorPalette theme).getD 0 "" = "" →
        getColor colorAttr hiRaw theme fallback = "#007bff") := by
  intro colorAttr hiRaw theme fallback
  refine ⟨?_, ?_, ?_, ?_, ?_⟩
  · intro h
    simp [getColor, h]
  · intro h hh
    simp [getColor, h, hh]
  · intro h hh hf
    simp [getColor, h, hh, hf]
  · intro h hh hf hp
    rw [List.getD_eq_getElem?_getD] at hp
    simp [getColor, h, hh, hf, hp]
  · intro h hh hf hp
    rw [List.getD_eq_getElem?_getD] at hp
    simp [getColor, h, hh, hf, hp]

/-- Witness for claim C5 as amended, exercising four of the precedence
levels at concrete inputs. -/
theorem getColor_precedence_witness :
    getColor (some "crimson") "gold" themeAllEmptyEx (some "blue") = "crimson" ∧
    getColor none "gold" themeAllEmptyEx (some "blue") = "gold" ∧
    getColor none "" themeAllEmptyEx (some "blue") = "blue" ∧
    getColor none "" themeAllEmptyEx none = "#440154" := by
  refine ⟨?_, ?_, ?_, ?_⟩
  · exact (getColor_precedence (some "crimson") "gold" themeAllEmptyEx (some "blue")).1
      (by decide)
  · exact (getColor_precedence none "gold" themeAllEmptyEx (some "blue")).2.1
      (by decide) (by decide)
  · exact (getColor_precedence none "" themeAllEmptyEx (some "blue")).2.2.1
      (by decide) (by decide) (by decide)
  · have h := (getColor_precedence none "" themeAllEmptyEx none).2.2.2.1
      (by decide) (by decide) (by decide) (by decide)
    rw [h]
    decide

/-- Claim C6 counterexample: a parsed dataset whose single entry has no
numeric value, x or y field is returned by getData unchanged — the
entry is retained, not disqualified. -/
theorem getData_retains_invalid_entry_cex :
    getData parseRetainsEx
        { dataAttr := some "[\x7b\"label\":\"A\"\x7d]", srcAttr := none, content := none }
      = Json.arr [Json.obj [("label", Json.str "A")]] ∧
    fieldIsNum (Json.obj [("label", Json.str "A")]) "value" = false ∧
    fieldIsNum (Json.obj [("label", Json.str "A")]) "x" = false ∧
    fieldIsNum (Json.obj [("label", Json.str "A")]) "y" = false := by
  refine ⟨rfl, rfl, rfl, rfl⟩

/-- Claim C6 as amended: getData performs no per-entry validation — a
successfully parsed data attribute is returned verbatim to the
renderers, with every entry retained whatever its fields hold. -/
theorem getData_returns_parsed_value_verbatim :
    ∀ (parse : String → Option Json) (s : DataSources) (v : Json),
      jsStrTruthy s.dataAttr = true → parse (s.dataAttr.getD "") = some v →
      getData parse s = v := by
  intro parse s v h hp
  simp [getData, h, hp]

/-- Witness for claim C6 as amended at the concrete entry lacking
numeric fields. -/
theorem getData_returns_parsed_value_verbatim_witness :
    getData parseRetainsEx
        { dataAttr := some "[\x7b\"label\":\"A\"\x7d]", srcAttr := none, content := none }
      = Json.arr [Json.obj [("label", Json.str "A")]] := by
  refine getData_returns_parsed_value_verbatim parseRetainsEx _ _ rfl ?_
  simp [parseRetainsEx]

/-- Claim C7 counterexample: with height 10 the plot height is -50, and
the bar for value 5 (the maximum) gets rendered height -50, which is
negative — the claimed universal bar height ≥ 0 fails for heights below
60. -/
theorem bar_negative_height_cex :
    barRenderedHeight barDataCex 10 5 = -50 ∧
    ¬(0 ≤ barRenderedHeight barDataCex 10 5) := by
  have hmax : barMaxValue barDataCex = 5 := by
    simp [barMaxValue, d3max, barDataCex]
  have h : barRenderedHeight barDataCex 10 5 = -50 := by
    unfold barRenderedHeight barYScale scaleLinearMap
    rw [hmax, if_neg (by norm_num)]
    norm_num [chartHeightFor]
  exact ⟨h, by rw [h]; norm_num⟩

/-- Claim C7 as amended: the vertical bar renderer uses plot width
width - 70 and plot height height - 60, its value scale sends 0 to the
plot height, every bar has rendered height plotHeight - yScale(value),
and that height is nonnegative whenever the plot height is nonnegative,
in particular for every height ≥ 60 (such as the default 400). -/
theorem bar_vertical_scale_properties :
    ∀ (width height : Int) (data : List BarDatum),
      data ≠ [] → 0 < barMaxValue data →
      chartWidthFor width = width - 70 ∧
      chartHeightFor height = height - 60 ∧
      barYScale data height 0 = ((chartHeightFor height : Int) : Rat) ∧
      (∀ d ∈ data, barRenderedHeight data height d.value
          = ((chartHeightFor height : Int) : Rat) - barYScale data height d.value) ∧
      ((60 : Int) ≤ height → (∀ d ∈ data, 0 ≤ d.value) →
        ∀ d ∈ data, 0 ≤ barRenderedHeight data height d.value) := by
  intro width height data hne hmax
  have hm : ¬(barMaxValue data - 0 = 0) := by
    simpa using ne_of_gt hmax
  refine ⟨?_, ?_, ?_, ?_, ?_⟩
  · unfold chartWidthFor; ring
  · unfold chartHeightFor; ring
  · unfold barYScale scaleLinearMap
    rw [if_neg hm]
    ring
  · intro d hd; rfl
  · intro hh hvals d hd
    have hch : (0 : Rat) ≤ ((chartHeightFor height : Int) : Rat) := by
      have h0 : (0 : Int) ≤ chartHeightFor height := by unfold chartHeightFor; omega
      exact_mod_cast h0
    have hv := hvals d hd
    unfold barRenderedHeight barYScale scaleLinearMap
    rw [if_neg hm]
    have hrw : ((chartHeightFor height : Int) : Rat)
        - (((chartHeightFor height : Int) : Rat)
          + (0 - ((chartHeightFor height : Int) : Rat))
            * ((d.value - 0) / (barMaxValue data - 0)))
        = ((chartHeightFor height : Int) : Rat) * (d.value / barMaxValue data) := by
      ring
    rw [hrw]
    exact mul_nonneg hch (div_nonneg hv (le_of_lt hmax))

/-- Witness for claim C7 as amended at the round-trip example data with
the default 400 by 400 dimensions. -/
theorem bar_vertical_scale_properties_witness :
    barYScale barDataW 400 0 = 340 ∧ 0 ≤ barRenderedHeight barDataW 400 30 := by
  have hmaxW : barMaxValue barDataW = 80 := by
    simp [barMaxValue, d3max, barDataW]
    norm_num
  have h := bar_vertical_scale_properties 400 400 barDataW (by decide)
    (by rw [hmaxW]; norm_num)
  constructor
  · rw [h.2.2.1]; norm_num [chartHeightFor]
  · exact h.2.2.2.2 (by decide) (by decide) ⟨"A", 30⟩ (by decide)

/-- Claim C8: the scatter axis domains are exactly the attained minimum
and maximum of the respective input coordinates, with no padding, and a
single-point dataset yields the degenerate domain pair (v, v) on each
axis. -/
theorem scatter_domain_exact_extent :
    (∀ data : List XYDatum, data ≠ [] →
      (∃ lo hi, scatterXDomain data = some (lo, hi) ∧
        lo ∈ data.map (fun d => d.x) ∧ hi ∈ data.map (fun d => d.x) ∧
        ∀ v ∈ data.map (fun d => d.x), lo ≤ v ∧ v ≤ hi) ∧
      (∃ lo hi, scatterYDomain data = some (lo, hi) ∧
        lo ∈ data.map (fun d => d.y) ∧ hi ∈ data.map (fun d => d.y) ∧
        ∀ v ∈ data.map (fun d => d.y), lo ≤ v ∧ v ≤ hi)) ∧
    (∀ d : XYDatum, scatterXDomain [d] = some (d.x, d.x) ∧
      scatterYDomain [d] = some (d.y, d.y)) := by
  constructor
  · intro data hne
    have hx : data.map (fun d => d.x) ≠ [] := by
      simpa [List.map_eq_nil_iff] using hne
    have hy : data.map (fun d => d.y) ≠ [] := by
      simpa [List.map_eq_nil_iff] using hne
    exact ⟨d3extent_spec _ hx, d3extent_spec _ hy⟩
  · intro d
    exact ⟨rfl, rfl⟩

/-- Witness for claim C8 at a concrete three-point dataset and a
concrete single-point dataset. -/
theorem scatter_domain_exact_extent_witness :
    (∃ lo hi, scatterXDomain scatterDataW = some (lo, hi) ∧
      lo ∈ scatterDataW.map (fun d => d.x) ∧ hi ∈ scatterDataW.map (fun d => d.x) ∧
      ∀ v ∈ scatterDataW.map (fun d => d.x), lo ≤ v ∧ v ≤ hi) ∧
    scatterXDomain [(⟨5, 6⟩ : XYDatum)] = some (5, 5) :=
  ⟨(scatter_domain_exact_extent.1 scatterDataW (by decide)).1,
   (scatter_domain_exact_extent.2 ⟨5, 6⟩).1⟩

/-- Lookup of a pattern id built by setupPatterns: slot j of the 12. -/
theorem setupPatternIds_getD (j : Nat) (hj : j < 12) :
    setupPatternIds.getD j "" = "pattern-" ++ toString j := by
  interval_cases j <;> rfl

/-- Every density table of monochromePatterns has exactly 12 entries. -/
theorem monochromePatternTable_length (t : String) :
    (monochromePatternTable t).length = 12 := by
  unfold monochromePatternTable
  split <;> rfl

/-- Claim C9 counterexample: with a theme that sets exactly 5 color
slots (and no monochrome mode, no overrides), getFillValue wraps with
period 5, not 12: indices 0 and 12 give different palette entries, so
the claimed palette[index mod 12] lookup and the universal period-12
identity both fail. -/
theorem getFillValue_not_periodic_twelve_cex :
    getFillValue fillCtxFiveEx 12 none = "c3" ∧
    getFillValue fillCtxFiveEx 0 none = "c1" ∧
    getFillValue fillCtxFiveEx 12 none ≠ getFillValue fillCtxFiveEx 0 none := by
  refine ⟨by decide, by decide, by decide⟩

/-- Claim C9 as amended: in monochrome mode getFillValue refers to
pattern index mod 12 and is periodic with period 12; otherwise, with no
per-datum and no global color override, it returns the palette entry at
index mod palette.length — which is index mod 12 exactly when the
palette has 12 entries (all slots set, or the all-empty fallback), and
then the period-12 identity holds as well; getPatternByIndex selects
entry index mod 12 of its 12-entry table for every pattern type. -/
theorem fill_resolution_cyclic :
    (∀ (ctx : FillCtx) (i : Nat) (c : Option String),
      ctx.isMonochrome = true → ctx.patterns = setupPatternIds →
      getFillValue ctx i c = "url(#" ++ setupPatternIds.getD (i % 12) "" ++ ")" ∧
      getFillValue ctx (i + 12) c = getFillValue ctx i c) ∧
    (∀ (ctx : FillCtx) (i : Nat),
      ctx.isMonochrome = false → jsStrTruthy ctx.colorAttr = false →
      getFillValue ctx i none
        = (getColorPalette ctx.theme).getD
            (i % (getColorPalette ctx.theme).length) "" ∧
      ((getColorPalette ctx.theme).length = 12 →
        getFillValue ctx (i + 12) none = getFillValue ctx i none)) ∧
    (∀ (i : Nat) (t : String), getPatternByIndex (i + 12) t = getPatternByIndex i t) ∧
    (∀ (i : Nat) (t : String),
      getPatternByIndex i t = (monochromePatternTable t).getD (i % 12) ⟨"diagonal", 2, 1/2⟩) := by
  refine ⟨?_, ?_, ?_, ?_⟩
  · intro ctx i c hm hp
    have key : ∀ j : Nat,
        getFillValue ctx j c = "url(#" ++ setupPatternIds.getD (j % 12) "" ++ ")" := by
      intro j
      unfold getFillValue
      rw [hm, if_pos rfl, hp, show setupPatternIds.length = 12 from rfl]
    refine ⟨key i, ?_⟩
    rw [key i, key (i + 12), Nat.add_mod_right]
  · intro ctx i hm hc
    have key : ∀ j : Nat,
        getFillValue ctx j none
          = (getColorPalette ctx.theme).getD
              (j % (getColorPalette ctx.theme).length) "" := by
      intro j
      unfold getFillValue
      rw [hm, if_neg (by simp), if_neg (by simp [jsStrTruthy]), if_neg (by simp [hc])]
    refine ⟨key i, ?_⟩
    intro h12
    rw [key i, key (i + 12), h12, Nat.add_mod_right]
  · intro i t
    simp only [getPatternByIndex]
    rw [monochromePatternTable_length, Nat.add_mod_right]
  · intro i t
    simp only [getPatternByIndex]
    rw [monochromePatternTable_length]

/-- Witness for claim C9 as amended: the monochrome component refers to
pattern 1 at index 13, and over the 12-entry fallback palette index 12
resolves like index 0. -/
theorem fill_resolution_cyclic_witness :
    getFillValue fillCtxMonoEx 13 none = "url(#" ++ setupPatternIds.getD 1 "" ++ ")" ∧
    getFillValue fillCtxPlainEx 12 none = getFillValue fillCtxPlainEx 0 none :=
  ⟨(fill_resolution_cyclic.1 fillCtxMonoEx 13 none rfl rfl).1,
   (fill_resolution_cyclic.2.1 fillCtxPlainEx 12 rfl rfl).2 (by decide)⟩

/-- Claim C10: the empty-data guard rejects exactly the falsy values
and the values whose length property equals 0; a data attribute whose
JSON parses to a plain object or to a nonzero number passes the guard,
and getData hands that value to the rendering path verbatim, with no
shape validation. -/
theorem empty_guard_no_shape_validation :
    (∀ d : Json, emptyDataGuardRejects d = true ↔
      (jsTruthy d = false ∨ jsLength d = some 0)) ∧
    emptyDataGuardRejects (Json.obj [("a", Json.num 1)]) = false ∧
    emptyDataGuardRejects (Json.num 5) = false ∧
    getData parseObjEx
        { dataAttr := some "\x7b\"a\": 1\x7d", srcAttr := none, content := none }
      = Json.obj [("a", Json.num 1)] := by
  refine ⟨?_, rfl, rfl, rfl⟩
  intro d
  simp [emptyDataGuardRejects]

end DataroomCharts
